import Mathlib

/-!
Shallow embedding of the tabular Q-learning trainer in
`tabular_q_learning/q_learning.py` (Safety-RL repository), and proofs of
properties of its training loop, backup operator, action selector,
warm-start validation and statistics bookkeeping.

Modelling conventions:
* Python floats are modelled by `ℚ` (exact arithmetic).
* NumPy tensors are modelled by `NpArray`: an explicit `shape` (list of
  dimension sizes) together with a total map from multi-indices
  (`List Nat`) to values.  `q_values[state + (action,)]` becomes
  `q.data (state ++ [action])`.
* The global NumPy random generator is a pure stream: `np.random.seed s`
  resets the state to `⟨s, 0⟩` and each `np.random.random()` call reads
  `stream s k` and bumps the counter `k`.  The concrete stream is an
  arbitrary parameter; draws of the real generator lie in `[0, 1)`, which
  appears as a hypothesis where it matters.
* External collaborators that are not part of the repository core
  (the gym environment, `discretize_state`, `discrete_to_real`,
  `sbe_outcome`) enter as parameters of the configuration, mirroring the
  call interface the Python code uses.
* Wall-clock readings (`datetime.now()`, `time.process_time()`) are
  explicit oracle inputs of `learn`, since the Python code stores them in
  the returned statistics.
* Fallible paths (`raise ValueError`, attribute errors) are `Except`.
-/

namespace SafetyRL

/-- Model of the global NumPy random generator state: the seed it was last
seeded with and how many draws have been consumed since. -/
structure RngState where
  seed : Nat
  counter : Nat
  deriving DecidableEq, Repr

/-- One call of `np.random.random()`: reads the draw stream at the current
position and advances the counter by one. -/
def npRandomRandom (stream : Nat → Nat → ℚ) (r : RngState) : ℚ × RngState :=
  (stream r.seed r.counter, ⟨r.seed, r.counter + 1⟩)

/-- Model of a NumPy tensor: a shape together with a total assignment of
values to multi-indices (entries outside the shape are never read). -/
structure NpArray where
  shape : List Nat
  data : List Nat → ℚ

/-- Functional write of one tensor entry, the model of
`arr[idx] = v` on a NumPy array. -/
def npSet (a : NpArray) (idx : List Nat) (v : ℚ) : NpArray :=
  { a with data := fun j => if j = idx then v else a.data j }

/-- The row `q_values[state]` over the trailing action axis of size `n`,
as the list of its entries in action order. -/
def npRow (q : NpArray) (state : List Nat) (n : Nat) : List ℚ :=
  (List.range n).map fun a => q.data (state ++ [a])

/-- Helper for `npArgmax`: scan the tail, keeping the index of the first
maximum seen so far (strict improvement moves the index). -/
def argmaxAux : List ℚ → Nat → Nat → ℚ → Nat
  | [], _, bi, _ => bi
  | h :: t, i, bi, bv => if bv < h then argmaxAux t (i + 1) i h else argmaxAux t (i + 1) bi bv

/-- Model of `np.argmax` on a vector: index of the largest entry, ties
broken by the lowest index (first-max semantics); 0 on the empty list. -/
def npArgmax : List ℚ → Nat
  | [] => 0
  | h :: t => argmaxAux t 1 0 h

/-- Model of `np.amax` on a vector: its largest entry (0 on the empty
list, where NumPy would raise). -/
def npAmax : List ℚ → ℚ
  | [] => 0
  | h :: t => t.foldl max h

/-- Model of `np.min` on a vector. -/
def npMin : List ℚ → ℚ
  | [] => 0
  | h :: t => t.foldl min h

/-- Model of `np.average` on a vector. -/
def npAverage (l : List ℚ) : ℚ := l.sum / (l.length : ℚ)

/-- Python truthiness of the optional scalar `fictitious_terminal_val`:
`None` and the scalar 0 are falsy, every other scalar is truthy.  This is
the test `if fictitious_terminal_val:` at q_learning.py lines 150/158. -/
def truthyOpt : Option ℚ → Bool
  | none => false
  | some v => v ≠ 0

/-- Terminal backup target, q_learning.py lines 149-154 and 157-161:
in SBE mode `(1-gamma)*reward + gamma*min(reward, ftv)` when the
fictitious terminal value is truthy, else `reward`; in standard mode
`reward + gamma*ftv` when truthy, else `reward`. -/
def qTerminal (useSbe : Bool) (gamma reward : ℚ) (ftv : Option ℚ) : ℚ :=
  if useSbe then
    if truthyOpt ftv then (1 - gamma) * reward + gamma * min reward (ftv.getD 0)
    else reward
  else
    if truthyOpt ftv then reward + gamma * ftv.getD 0
    else reward

/-- Non-terminal backup target, q_learning.py lines 155-156 and 162:
`(1-gamma)*reward + gamma*min(reward, nextMax)` in SBE mode,
`reward + gamma*nextMax` in standard mode. -/
def qNonTerminal (useSbe : Bool) (gamma reward nextMax : ℚ) : ℚ :=
  if useSbe then (1 - gamma) * reward + gamma * min reward nextMax
  else reward + gamma * nextMax

/-- Numeric value of a Python bool used in arithmetic. -/
def boolToQ (b : Bool) : ℚ := if b then 1 else 0

/-- The blended update target of q_learning.py line 165:
`new_q = done * q_terminal + (1.0 - done) * q_non_terminal`. -/
def backupTarget (useSbe : Bool) (gamma reward : ℚ) (done : Bool) (ftv : Option ℚ)
    (nextMax : ℚ) : ℚ :=
  boolToQ done * qTerminal useSbe gamma reward ftv
    + (1 - boolToQ done) * qNonTerminal useSbe gamma reward nextMax

/-- Incremental-averaging write of q_learning.py line 166:
`q_values[idx] = (1 - alpha) * q_values[idx] + alpha * new_q`. -/
def qUpdate (q : NpArray) (idx : List Nat) (alpha target : ℚ) : NpArray :=
  npSet q idx ((1 - alpha) * q.data idx + alpha * target)

/-- State of the action-space sampler of the gym environment
(`env.action_space.sample()`): its own draw stream and position, separate
from the global NumPy generator that `select_action` reads. -/
structure Sampler where
  stream : Nat → Nat
  counter : Nat

/-- One call of `env.action_space.sample()`. -/
def sampleAction (sp : Sampler) : Nat × Sampler :=
  (sp.stream sp.counter, { sp with counter := sp.counter + 1 })

/-- The function `select_action(q_values, state, env, epsilon=0)` of
q_learning.py lines 193-206, with the env argument reduced to the one
attribute the body uses, its action-space sampler: draw one number from
the global generator; if it is below `epsilon` return a sampled action,
otherwise the argmax of the value-table row at `state` (`n` is
`env.action_space.n`, the length of the row). -/
def select_action (stream : Nat → Nat → ℚ) (q : NpArray) (n : Nat) (state : List Nat)
    (sp : Sampler) (epsilon : ℚ) (rng : RngState) : Nat × Sampler × RngState :=
  let d := npRandomRandom stream rng
  if d.1 < epsilon then
    let s := sampleAction sp
    (s.1, s.2, d.2)
  else
    (npArgmax (npRow q state n), sp, d.2)

/-- The call `select_action(q_values, state, epsilon)` at q_learning.py
line 131.  The three positional arguments bind `q_values`, `state` and
`env`: the epsilon of the schedule lands in the `env` slot and the
selector keeps its default `epsilon = 0`.  The exploration branch, if the
drawn number were below 0, would evaluate `epsilon.action_space` and
raise; it is modelled as an error.  The draw itself has already advanced
the global generator, so the new generator state is returned in either
case. -/
def selectActionAsCalledInLearn (stream : Nat → Nat → ℚ) (q : NpArray) (n : Nat)
    (state : List Nat) (rng : RngState) : Except String Nat × RngState :=
  let d := npRandomRandom stream rng
  (if d.1 < (0 : ℚ) then Except.error "AttributeError: float has no attribute action_space"
   else Except.ok (npArgmax (npRow q state n)), d.2)

/-- The gym environment contract consumed by `learn`, over an observation
type `O` and an internal environment state type `E`: `reset`, `step`
(returning observation, reward, done flag and new internal state), the
action count `n` of `env.action_space`, the warm-start margin function
`l_function`, the `set_discretization` hook and the identifier string
recorded in the statistics. -/
structure Env (O E : Type) where
  n : Nat
  reset : E → O × E
  step : E → Nat → O × ℚ × Bool × E
  lF : O → ℚ
  setDisc : E → E
  specId : String

/-- Configuration of one `learn` call: its keyword arguments together
with the external collaborators (environment, initial environment state,
discretizer, inverse discretizer, SBE outcome reducer, the draw stream of
the global NumPy generator, and a termination bound used only when
`max_episode_length` is `None`). -/
structure LearnCfg (O E : Type) where
  getLearningRate : Nat → ℚ → ℚ
  getEpsilon : Nat → ℚ → ℚ
  getGamma : Nat → ℚ → ℚ
  maxEpisodes : Nat
  buckets : List Nat
  stateBounds : List (ℚ × ℚ)
  env : Env O E
  envState : E
  maxEpisodeLength : Option Nat
  qValues : Option NpArray
  startEpisode : Option Nat
  seed : Nat
  fictitiousTerminalVal : Option ℚ
  useSbe : Bool
  stream : Nat → Nat → ℚ
  discretizeF : O → List Nat
  discreteToRealF : List Nat → O
  sbeOutcome : List ℚ → ℚ → ℚ
  fuel : Nat

/-- The statistics dictionary built by `learn` (q_learning.py lines
90-106): per-episode arrays are total maps from episode index, the visit
counters are a tensor shaped like the value table, and the two wall-clock
fields are the `start_time` string and the optional `time_elapsed`. -/
structure Stats where
  startTime : String
  episodeLengths : Nat → ℚ
  averageEpisodeRewards : Nat → ℚ
  trueMin : Nat → ℚ
  episodeOutcomes : Nat → ℚ
  stateActionVisits : NpArray
  epsilonArr : Nat → ℚ
  learningRateArr : Nat → ℚ
  stateBounds : List (ℚ × ℚ)
  buckets : List Nat
  gammaArr : Nat → ℚ
  typeTag : String
  environment : String
  seed : Nat
  episode : Nat
  timeElapsed : Option ℚ

/-- Pointwise update of a per-episode statistics array. -/
def updF (f : Nat → ℚ) (i : Nat) (v : ℚ) : Nat → ℚ :=
  fun j => if j = i then v else f j

/-- The visit-counter bump of q_learning.py line 138:
`stats[state_action_visits][state + (action,)] += 1`. -/
def bumpAt (v : NpArray) (idx : List Nat) : NpArray :=
  npSet v idx (v.data idx + 1)

/-- The mutable state carried across one iteration of the inner
`while not done` loop of `learn`. -/
structure InnerSt (E : Type) where
  q : NpArray
  visits : NpArray
  eps : ℚ
  alpha : ℚ
  gamma : ℚ
  rng : RngState
  env : E
  state : List Nat
  rewards : List ℚ
  t : Nat

/-- The (state, action) tensor index written by the loop body from inner
state `σ`: the current discretized state with the selected action
appended (`state + (action,)`).  Because of the argument slip at line 131
the selected action is always the argmax one. -/
def loopBodyIdx {O E : Type} (cfg : LearnCfg O E) (σ : InnerSt E) : List Nat :=
  σ.state ++ [npArgmax (npRow σ.q σ.state cfg.env.n)]

/-- One iteration of the inner loop of `learn` (q_learning.py lines
129-167): select the action (via the call at line 131), step the
environment, discretize the next observation, bump the visit counter,
refresh the three schedules at `(episode + start_episode, num_visits)`,
compute the blended backup target from the pre-update table, write the
incremental-averaging update, and move to the next state.  Returns the
new inner state and the done flag the environment reported. -/
def loopBody {O E : Type} (cfg : LearnCfg O E) (episode startEp : Nat) (σ : InnerSt E) :
    Except String (InnerSt E × Bool) := do
  let sel := selectActionAsCalledInLearn cfg.stream σ.q cfg.env.n σ.state σ.rng
  let action ← sel.1
  let step := cfg.env.step σ.env action
  let nextState := cfg.discretizeF step.1
  let reward := step.2.1
  let done := step.2.2.1
  let idx := σ.state ++ [action]
  let visits1 := bumpAt σ.visits idx
  let numVisits := visits1.data idx
  let eps1 := cfg.getEpsilon (episode + startEp) numVisits
  let alpha1 := cfg.getLearningRate (episode + startEp) numVisits
  let gamma1 := cfg.getGamma (episode + startEp) numVisits
  let newQ := backupTarget cfg.useSbe gamma1 reward done cfg.fictitiousTerminalVal
    (npAmax (npRow σ.q nextState cfg.env.n))
  Except.ok
    ({ q := qUpdate σ.q idx alpha1 newQ
       visits := visits1
       eps := eps1
       alpha := alpha1
       gamma := gamma1
       rng := sel.2
       env := step.2.2.2
       state := nextState
       rewards := σ.rewards ++ [reward]
       t := σ.t + 1 }, done)

/-- The inner `while not done` loop with its truncation break
(q_learning.py lines 129-171): run a body iteration; stop if the
environment reported done; otherwise, when `max_episode_length` is set
and the step counter has reached it, break; else continue.  The fuel
argument only makes the recursion structural; with
`max_episode_length = some m` a fuel of `m + 1` is never exhausted. -/
def innerLoop {O E : Type} (cfg : LearnCfg O E) (episode startEp : Nat) :
    Nat → InnerSt E → Except String (InnerSt E)
  | 0, σ => Except.ok σ
  | fuel + 1, σ => do
    let r ← loopBody cfg episode startEp σ
    if r.2 then Except.ok r.1
    else
      match cfg.maxEpisodeLength with
      | some m => if m ≤ r.1.t then Except.ok r.1 else innerLoop cfg episode startEp fuel r.1
      | none => innerLoop cfg episode startEp fuel r.1

/-- State carried from one episode of `learn` to the next. -/
structure RunSt (E : Type) where
  q : NpArray
  stats : Stats
  eps : ℚ
  alpha : ℚ
  gamma : ℚ
  rng : RngState
  env : E

/-- One episode of the main loop of `learn` (q_learning.py lines
119-186): reset and discretize, run the inner loop (fuel
`max_episode_length + 1` when a length is set, the external bound
otherwise), then record the episode statistics at this episode index.
The `save_freq` checkpoint call goes to the external persistence
collaborator and does not touch the state. -/
def runEpisode {O E : Type} (cfg : LearnCfg O E) (startEp : Nat) (st : RunSt E)
    (episode : Nat) : Except String (RunSt E) := do
  let r0 := cfg.env.reset st.env
  let state0 := cfg.discretizeF r0.1
  let fuel0 := match cfg.maxEpisodeLength with
    | some m => m + 1
    | none => cfg.fuel
  let σ ← innerLoop cfg episode startEp fuel0
    { q := st.q
      visits := st.stats.stateActionVisits
      eps := st.eps
      alpha := st.alpha
      gamma := st.gamma
      rng := st.rng
      env := r0.2
      state := state0
      rewards := []
      t := 0 }
  let outcome := cfg.sbeOutcome σ.rewards σ.gamma
  Except.ok
    { q := σ.q
      stats :=
        { st.stats with
          episodeOutcomes := updF st.stats.episodeOutcomes episode outcome
          trueMin := updF st.stats.trueMin episode (npMin σ.rewards)
          episodeLengths := updF st.stats.episodeLengths episode (σ.rewards.length : ℚ)
          averageEpisodeRewards :=
            updF st.stats.averageEpisodeRewards episode (npAverage σ.rewards)
          learningRateArr := updF st.stats.learningRateArr episode σ.alpha
          epsilonArr := updF st.stats.epsilonArr episode σ.eps
          gammaArr := updF st.stats.gammaArr episode σ.gamma
          stateActionVisits := σ.visits
          episode := episode }
      eps := σ.eps
      alpha := σ.alpha
      gamma := σ.gamma
      rng := σ.rng
      env := σ.env }

/-- The fresh value table built when no warm start is given
(q_learning.py lines 71-80): shape `buckets + (env.action_space.n,)`,
each entry initialized to `env.l_function` at the real point of its state
part (the multi-index with the trailing action component dropped). -/
def initQ {O E : Type} (cfg : LearnCfg O E) : NpArray :=
  { shape := cfg.buckets ++ [cfg.env.n]
    data := fun idx => cfg.env.lF (cfg.discreteToRealF idx.dropLast) }

/-- The value-table setup and validation of `learn` (q_learning.py lines
67-88): with no warm start, reject a supplied `start_episode` and build
the fresh table; with a warm start, reject a table whose shape with the
last axis dropped differs from `buckets` (the warning branches change no
state). -/
def learnInitQ {O E : Type} (cfg : LearnCfg O E) : Except String NpArray :=
  match cfg.qValues with
  | none =>
    if cfg.startEpisode.isSome then
      Except.error "start_episode is only to be used with a warmstart q_values"
    else Except.ok (initQ cfg)
  | some qv =>
    if qv.shape.dropLast = cfg.buckets then Except.ok qv
    else
      Except.error "The shape of q_values excluding the last dimension must be the same as the shape of the discretization of states."

/-- The statistics dictionary as first built (q_learning.py lines
90-106): zeroed per-episode arrays, zeroed visit counters shaped like the
value table, the configuration echoes, and the wall-clock start string. -/
def initStats {O E : Type} (cfg : LearnCfg O E) (q0 : NpArray) (wallClock : String) :
    Stats :=
  { startTime := wallClock
    episodeLengths := fun _ => 0
    averageEpisodeRewards := fun _ => 0
    trueMin := fun _ => 0
    episodeOutcomes := fun _ => 0
    stateActionVisits := { shape := q0.shape, data := fun _ => 0 }
    epsilonArr := fun _ => 0
    learningRateArr := fun _ => 0
    stateBounds := cfg.stateBounds
    buckets := cfg.buckets
    gammaArr := fun _ => 0
    typeTag := "tabular q_values-learning"
    environment := cfg.env.specId
    seed := cfg.seed
    episode := 0
    timeElapsed := none }

/-- The state of the run as set up before the first episode
(q_learning.py lines 57-116): seeded generator, initial statistics,
`set_discretization` applied, and the three schedules evaluated at
`(start_episode, 1)`. -/
def initRunSt {O E : Type} (cfg : LearnCfg O E) (q0 : NpArray) (wallClock : String) :
    RunSt E :=
  { q := q0
    stats := initStats cfg q0 wallClock
    eps := cfg.getEpsilon (cfg.startEpisode.getD 0) 1
    alpha := cfg.getLearningRate (cfg.startEpisode.getD 0) 1
    gamma := cfg.getGamma (cfg.startEpisode.getD 0) 1
    rng := { seed := cfg.seed, counter := 0 }
    env := cfg.env.setDisc cfg.envState }

/-- The body of `learn` after table validation (q_learning.py lines
90-190): build the statistics, apply `set_discretization`, resolve the
starting episode, evaluate the three schedules at `(start_episode, 1)`,
fold the episode loop over `range(max_episodes)`, and finally record the
elapsed process time.  `wallClock` and `elapsed` are the wall-clock
oracle inputs. -/
def learnRun {O E : Type} (cfg : LearnCfg O E) (q0 : NpArray) (wallClock : String)
    (elapsed : ℚ) : Except String (NpArray × Stats) := do
  let fin ← (List.range cfg.maxEpisodes).foldlM
    (runEpisode cfg (cfg.startEpisode.getD 0)) (initRunSt cfg q0 wallClock)
  Except.ok (fin.q, { fin.stats with timeElapsed := some elapsed })

/-- The function `learn` of q_learning.py lines 24-190: seed the global
generator, validate and build the value table, then run the training
loop.  Wall-clock readings are the oracle inputs `wallClock` (the
formatted start time stored in the statistics) and `elapsed` (the
process-time difference stored at the end). -/
def learn {O E : Type} (cfg : LearnCfg O E) (wallClock : String) (elapsed : ℚ) :
    Except String (NpArray × Stats) := do
  let q0 ← learnInitQ cfg
  learnRun cfg q0 wallClock elapsed

/-- Erase the two wall-clock fields of the statistics; two statistics
records with the same erasure agree on everything except `start_time` and
`time_elapsed`. -/
def scrubClock (s : Stats) : Stats :=
  { s with startTime := "", timeElapsed := none }

/-- Overwrite the `start_time` field of an episode-loop state. -/
def setStart {E : Type} (w : String) (st : RunSt E) : RunSt E :=
  { st with stats := { st.stats with startTime := w } }

/-- Read one value-table entry out of a `learn` result (0 on error). -/
def qEntryOf (r : Except String (NpArray × Stats)) (idx : List Nat) : ℚ :=
  match r with
  | Except.ok p => p.1.data idx
  | Except.error _ => 0

/-- Read the `start_time` field out of a `learn` result. -/
def startTimeOf (r : Except String (NpArray × Stats)) : String :=
  match r with
  | Except.ok p => p.2.startTime
  | Except.error _ => ""

/-- A single-state, single-action deterministic environment stub: every
step returns reward `r` and done flag `d` and keeps the trivial internal
state. -/
def demoEnv (r : ℚ) (d : Bool) : Env Unit Unit :=
  { n := 1
    reset := fun e => ((), e)
    step := fun e _ => ((), r, d, e)
    lF := fun _ => 0
    setDisc := id
    specId := "demo" }

/-- A concrete one-episode configuration over the single-state stub:
one bucket, `alpha = 1`, `gamma = 1/2`, `epsilon`-schedule constantly 1,
SBE mode, `max_episode_length = 1`, draw stream constantly `1/2`. -/
def demoCfg (r : ℚ) (d : Bool) (ftv : Option ℚ) : LearnCfg Unit Unit :=
  { getLearningRate := fun _ _ => 1
    getEpsilon := fun _ _ => 1
    getGamma := fun _ _ => 1 / 2
    maxEpisodes := 1
    buckets := [1]
    stateBounds := [(0, 1)]
    env := demoEnv r d
    envState := ()
    maxEpisodeLength := some 1
    qValues := none
    startEpisode := none
    seed := 0
    fictitiousTerminalVal := ftv
    useSbe := true
    stream := fun _ _ => 1 / 2
    discretizeF := fun _ => [0]
    discreteToRealF := fun _ => ()
    sbeOutcome := fun l _ => npMin l
    fuel := 3 }

/-- A concrete two-action value table over one state, with row
`q[0] = [0, 5]`: the argmax action is 1. -/
def demoQ2 : NpArray :=
  { shape := [1, 2], data := fun idx => if idx = [0, 1] then 5 else 0 }

/-- A concrete sampler whose next sampled action is 0. -/
def demoSampler : Sampler := { stream := fun _ => 0, counter := 0 }

/-- A concrete inner-loop state over the single-state stub: all table
entries 2, zero visit counters, at state `[0]`. -/
def demoInner : InnerSt Unit :=
  { q := { shape := [1, 1], data := fun _ => 2 }
    visits := { shape := [1, 1], data := fun _ => 0 }
    eps := 1
    alpha := 1
    gamma := 1 / 2
    rng := { seed := 0, counter := 0 }
    env := ()
    state := [0]
    rewards := []
    t := 0 }

/-- A warm-start table of shape `[1, 3]`: its leading shape matches
`buckets = [1]` while its trailing action dimension 3 differs from the
single-action environment. -/
def demoWideQ : NpArray := { shape := [1, 3], data := fun _ => 7 }

theorem npSet_data_same (a : NpArray) (idx : List Nat) (v : ℚ) :
    (npSet a idx v).data idx = v := by
  simp [npSet]

theorem npSet_data_ne (a : NpArray) (idx : List Nat) (v : ℚ) (j : List Nat)
    (h : j ≠ idx) : (npSet a idx v).data j = a.data j := by
  simp [npSet, h]

theorem bumpAt_data_same (a : NpArray) (idx : List Nat) :
    (bumpAt a idx).data idx = a.data idx + 1 := by
  simp [bumpAt, npSet]

theorem bumpAt_data_ne (a : NpArray) (idx j : List Nat) (h : j ≠ idx) :
    (bumpAt a idx).data j = a.data j := by
  simp [bumpAt, npSet, h]

theorem bumpAt_data_le (a : NpArray) (idx j : List Nat) :
    a.data j ≤ (bumpAt a idx).data j := by
  by_cases h : j = idx
  · subst h; rw [bumpAt_data_same]; linarith
  · rw [bumpAt_data_ne a idx j h]

/-- C10: every call of `select_action` evaluates one draw from the
global NumPy generator before deciding between exploration and
exploitation, advancing the generator state by exactly one draw — also
when epsilon is 0 and the argmax action is returned, and also at the call
site inside `learn`. -/
theorem c10_select_action_always_draws
    (stream : Nat → Nat → ℚ) (q : NpArray) (n : Nat) (state : List Nat)
    (sp : Sampler) (epsilon : ℚ) (rng : RngState) :
    (select_action stream q n state sp epsilon rng).2.2 =
      { seed := rng.seed, counter := rng.counter + 1 } ∧
    (selectActionAsCalledInLearn stream q n state rng).2 =
      { seed := rng.seed, counter := rng.counter + 1 } := by
  refine ⟨?_, rfl⟩
  unfold select_action npRandomRandom
  by_cases h : stream rng.seed rng.counter < epsilon <;> simp [h]

/-- C1: the claim fails because of the call at q_learning.py line 131.
With current epsilon 1, a generator draw of 1/2 and a sampler whose next
action is 0, epsilon-greedy selection as specified (the draw 1/2 is below
epsilon = 1) returns the sampled action 0; the call as written in `learn`
binds epsilon to the `env` parameter of `select_action`, leaves the
selector at its default epsilon 0, and returns the argmax action 1 of the
row `[0, 5]`. -/
theorem c1_learn_ignores_epsilon :
    (select_action (fun _ _ => 1 / 2) demoQ2 2 [0] demoSampler 1
        { seed := 0, counter := 0 }).1 = 0 ∧
    (selectActionAsCalledInLearn (fun _ _ => 1 / 2) demoQ2 2 [0]
        { seed := 0, counter := 0 }).1 = Except.ok 1 := by
  constructor
  · norm_num [select_action, npRandomRandom, demoSampler, sampleAction]
  · norm_num [selectActionAsCalledInLearn, npRandomRandom, npArgmax, npRow, demoQ2,
      argmaxAux, List.range_succ]

/-- C2 counterexample: with `fictitious_terminal_val = 0` (a set but
falsy scalar), gamma 1/2 and reward 1 in SBE mode, the terminal target of
the code is the bare reward 1, not the fictitious-terminal formula value
`(1 - 1/2)*1 + (1/2)*min 1 0 = 1/2`: the truthiness test at line 150
treats the scalar 0 as unset. -/
theorem c2_ftv_zero_counterexample :
    qTerminal true (1 / 2) 1 (some 0) = 1 ∧
    qTerminal true (1 / 2) 1 (some 0) ≠ (1 - 1 / 2) * 1 + (1 / 2) * min 1 (0 : ℚ) := by
  constructor
  · norm_num [qTerminal, truthyOpt]
  · norm_num [qTerminal, truthyOpt]

/-- C2 amended: for every truthy (nonzero) scalar value of
`fictitious_terminal_val`, a terminal transition backup target uses the
fictitious-terminal formula — in SBE mode
`(1-gamma)*reward + gamma*min(reward, ftv)`, in standard mode
`reward + gamma*ftv`; when it is unset, or set to the falsy scalar 0, the
terminal target equals the reward. -/
theorem c2_ftv_truthiness_backup :
    (∀ g r v : ℚ, v ≠ 0 →
      qTerminal true g r (some v) = (1 - g) * r + g * min r v ∧
      qTerminal false g r (some v) = r + g * v) ∧
    (∀ (u : Bool) (g r : ℚ),
      qTerminal u g r (some 0) = r ∧ qTerminal u g r none = r) := by
  constructor
  · intro g r v hv
    constructor <;> simp [qTerminal, truthyOpt, hv]
  · intro u g r
    cases u <;> exact ⟨by simp [qTerminal, truthyOpt], by simp [qTerminal, truthyOpt]⟩

/-- C2 witness: the amended theorem applied at gamma 1/2, reward 3 and
the truthy fictitious terminal value -5. -/
theorem c2_ftv_truthiness_backup_witness :
    qTerminal true (1 / 2) 3 (some (-5)) = (1 - 1 / 2) * 3 + (1 / 2) * min 3 (-5) ∧
    qTerminal false (1 / 2) 3 (some (-5)) = 3 + (1 / 2) * (-5) :=
  c2_ftv_truthiness_backup.1 (1 / 2) 3 (-5) (by decide)

/-- With a non-negative draw at the current generator position, one
iteration of the inner loop succeeds and produces exactly the state
written by lines 130-167: argmax action selection, visit bump, schedule
refresh at the bumped count, blended backup target read off the
pre-update table, incremental-averaging write, and the move to the
discretized next state. -/
theorem loopBody_ok {O E : Type} (cfg : LearnCfg O E) (ep se : Nat) (σ : InnerSt E)
    (h : ¬ cfg.stream σ.rng.seed σ.rng.counter < 0) :
    loopBody cfg ep se σ =
      Except.ok
        ({ q := qUpdate σ.q (loopBodyIdx cfg σ)
              (cfg.getLearningRate (ep + se) (σ.visits.data (loopBodyIdx cfg σ) + 1))
              (backupTarget cfg.useSbe
                (cfg.getGamma (ep + se) (σ.visits.data (loopBodyIdx cfg σ) + 1))
                (cfg.env.step σ.env (npArgmax (npRow σ.q σ.state cfg.env.n))).2.1
                (cfg.env.step σ.env (npArgmax (npRow σ.q σ.state cfg.env.n))).2.2.1
                cfg.fictitiousTerminalVal
                (npAmax (npRow σ.q
                  (cfg.discretizeF (cfg.env.step σ.env
                    (npArgmax (npRow σ.q σ.state cfg.env.n))).1) cfg.env.n)))
           visits := bumpAt σ.visits (loopBodyIdx cfg σ)
           eps := cfg.getEpsilon (ep + se) (σ.visits.data (loopBodyIdx cfg σ) + 1)
           alpha := cfg.getLearningRate (ep + se) (σ.visits.data (loopBodyIdx cfg σ) + 1)
           gamma := cfg.getGamma (ep + se) (σ.visits.data (loopBodyIdx cfg σ) + 1)
           rng := { seed := σ.rng.seed, counter := σ.rng.counter + 1 }
           env := (cfg.env.step σ.env (npArgmax (npRow σ.q σ.state cfg.env.n))).2.2.2
           state := cfg.discretizeF (cfg.env.step σ.env
             (npArgmax (npRow σ.q σ.state cfg.env.n))).1
           rewards := σ.rewards ++ [(cfg.env.step σ.env
             (npArgmax (npRow σ.q σ.state cfg.env.n))).2.1]
           t := σ.t + 1 },
         (cfg.env.step σ.env (npArgmax (npRow σ.q σ.state cfg.env.n))).2.2.1) := by
  simp [loopBody, selectActionAsCalledInLearn, npRandomRandom, h, loopBodyIdx,
    bumpAt, npSet, Except.instMonad, Except.bind, Except.pure]

/-- The numeric blend of line 165 at a false done flag is the
non-terminal target. -/
theorem backupTarget_false (u : Bool) (g r : ℚ) (ftv : Option ℚ) (m : ℚ) :
    backupTarget u g r false ftv m = qNonTerminal u g r m := by
  simp [backupTarget, boolToQ]

/-- The numeric blend of line 165 at a true done flag is the terminal
target. -/
theorem backupTarget_true (u : Bool) (g r : ℚ) (ftv : Option ℚ) (m : ℚ) :
    backupTarget u g r true ftv m = qTerminal u g r ftv := by
  simp [backupTarget, boolToQ]

/-- C4: in SBE mode, a step whose environment transition is non-terminal
writes the entry `(1-alpha)*old + alpha*((1-gamma)*reward +
gamma*min(reward, amax of the pre-update table row at the discretized
next state))`; and at `reward = 1, gamma = 9/10, next_value_max = 2` the
non-terminal SBE target is exactly 1. -/
theorem c4_sbe_nonterminal_target :
    qNonTerminal true (9 / 10) 1 2 = 1 ∧
    ∀ {O E : Type} (cfg : LearnCfg O E) (ep se : Nat) (σ : InnerSt E)
      (obs : O) (r : ℚ) (e1 : E),
      cfg.useSbe = true →
      ¬ cfg.stream σ.rng.seed σ.rng.counter < 0 →
      cfg.env.step σ.env (npArgmax (npRow σ.q σ.state cfg.env.n)) = (obs, r, false, e1) →
      ∃ σ1 : InnerSt E,
        loopBody cfg ep se σ = Except.ok (σ1, false) ∧
        σ1.q.data (loopBodyIdx cfg σ) =
          (1 - cfg.getLearningRate (ep + se) (σ.visits.data (loopBodyIdx cfg σ) + 1)) *
              σ.q.data (loopBodyIdx cfg σ) +
            cfg.getLearningRate (ep + se) (σ.visits.data (loopBodyIdx cfg σ) + 1) *
              ((1 - cfg.getGamma (ep + se) (σ.visits.data (loopBodyIdx cfg σ) + 1)) * r +
                cfg.getGamma (ep + se) (σ.visits.data (loopBodyIdx cfg σ) + 1) *
                  min r (npAmax (npRow σ.q (cfg.discretizeF obs) cfg.env.n))) := by
  constructor
  · rw [qNonTerminal]
    norm_num [min_def]
  · intro O E cfg ep se σ obs r e1 hu hs hstep
    refine ⟨_, by rw [loopBody_ok cfg ep se σ hs, hstep], ?_⟩
    simp only [qUpdate, npSet_data_same, backupTarget_false, qNonTerminal, hu, if_true]

/-- C4 witness: the theorem applied to the concrete single-state SBE
configuration: with all-2 table, alpha 1, gamma 1/2 and reward 1 the
written entry is `(1-1/2)*1 + (1/2)*min 1 2 = 1`. -/
theorem c4_sbe_nonterminal_target_witness :
    ∃ σ1 : InnerSt Unit,
      loopBody (demoCfg 1 false none) 0 0 demoInner = Except.ok (σ1, false) ∧
      σ1.q.data [0, 0] = 1 := by
  obtain ⟨σ1, h1, h2⟩ :=
    c4_sbe_nonterminal_target.2 (demoCfg 1 false none) 0 0 demoInner () 1 () rfl
      (by norm_num [demoCfg]) rfl
  refine ⟨σ1, h1, ?_⟩
  have hidx : loopBodyIdx (demoCfg 1 false none) demoInner = [0, 0] := by
    norm_num [loopBodyIdx, demoCfg, demoEnv, demoInner, npRow, npArgmax, argmaxAux,
      List.range_succ]
  rw [hidx] at h2
  rw [h2]
  norm_num [demoCfg, demoEnv, demoInner, npRow, npAmax, List.range_succ, min_def]

/-- C5: every successful loop iteration writes
`(1-alpha)*old + alpha*target` at the visited (state, action) cell, where
the target is the terminal target if the environment reported done and
the non-terminal target otherwise, the non-terminal target reads the max
of the row of the pre-update table at the discretized next state (also
when that state equals the current one), and no other cell changes. -/
theorem c5_update_uses_pre_update_table :
    ∀ {O E : Type} (cfg : LearnCfg O E) (ep se : Nat) (σ : InnerSt E)
      (obs : O) (r : ℚ) (d : Bool) (e1 : E),
      ¬ cfg.stream σ.rng.seed σ.rng.counter < 0 →
      cfg.env.step σ.env (npArgmax (npRow σ.q σ.state cfg.env.n)) = (obs, r, d, e1) →
      ∃ σ1 : InnerSt E,
        loopBody cfg ep se σ = Except.ok (σ1, d) ∧
        σ1.q.data (loopBodyIdx cfg σ) =
          (1 - cfg.getLearningRate (ep + se) (σ.visits.data (loopBodyIdx cfg σ) + 1)) *
              σ.q.data (loopBodyIdx cfg σ) +
            cfg.getLearningRate (ep + se) (σ.visits.data (loopBodyIdx cfg σ) + 1) *
              (if d then
                qTerminal cfg.useSbe
                  (cfg.getGamma (ep + se) (σ.visits.data (loopBodyIdx cfg σ) + 1)) r
                  cfg.fictitiousTerminalVal
              else
                qNonTerminal cfg.useSbe
                  (cfg.getGamma (ep + se) (σ.visits.data (loopBodyIdx cfg σ) + 1)) r
                  (npAmax (npRow σ.q (cfg.discretizeF obs) cfg.env.n))) ∧
        ∀ j, j ≠ loopBodyIdx cfg σ → σ1.q.data j = σ.q.data j := by
  intro O E cfg ep se σ obs r d e1 hs hstep
  refine ⟨_, by rw [loopBody_ok cfg ep se σ hs, hstep], ?_, ?_⟩
  · cases d
    · simp only [qUpdate, npSet_data_same, backupTarget_false, if_false, Bool.false_eq_true]
    · simp only [qUpdate, npSet_data_same, backupTarget_true, if_true]
  · intro j hj
    simp only [qUpdate]
    exact npSet_data_ne _ _ _ _ hj

/-- C5 witness: the theorem applied to the self-loop configuration
(the discretized next state equals the current state): the target reads
the pre-update entry 2, giving `min 1 2 = 1` and a written value of 1,
while every other cell keeps its value. -/
theorem c5_update_uses_pre_update_table_witness :
    ∃ σ1 : InnerSt Unit,
      loopBody (demoCfg 1 false none) 0 0 demoInner = Except.ok (σ1, false) ∧
      σ1.q.data [0, 0] = 1 ∧ σ1.q.data [0, 1] = 2 := by
  obtain ⟨σ1, h1, h2, h3⟩ :=
    c5_update_uses_pre_update_table (demoCfg 1 false none) 0 0 demoInner () 1 false ()
      (by norm_num [demoCfg]) rfl
  have hidx : loopBodyIdx (demoCfg 1 false none) demoInner = [0, 0] := by
    norm_num [loopBodyIdx, demoCfg, demoEnv, demoInner, npRow, npArgmax, argmaxAux,
      List.range_succ]
  rw [hidx] at h2 h3
  refine ⟨σ1, h1, ?_, ?_⟩
  · rw [h2]
    norm_num [demoCfg, demoEnv, demoInner, qNonTerminal, npRow, npAmax, List.range_succ,
      min_def]
  · rw [h3 [0, 1] (by decide)]
    norm_num [demoInner]

/-- C6: the blended target of line 165 applies the terminal formula
exactly on steps where the environment returned done and the
non-terminal formula otherwise; an episode that ends by reaching
`max_episode_length` with done still false applies the non-terminal
backup at the truncating step.  Concretely, with the never-terminating
single-state stub, alpha 1, gamma 1/2, reward 1, fictitious terminal
value -5 and `max_episode_length = 1`, the truncated run leaves the entry
at the non-terminal value 1/2, while the same run with done = true at
that step leaves the terminal value -2. -/
theorem c6_truncation_uses_nonterminal_backup :
    (∀ (u : Bool) (g r m : ℚ) (ftv : Option ℚ),
        backupTarget u g r false ftv m = qNonTerminal u g r m ∧
        backupTarget u g r true ftv m = qTerminal u g r ftv) ∧
    qEntryOf (learn (demoCfg 1 false (some (-5))) "" 0) [0, 0] = 1 / 2 ∧
    qEntryOf (learn (demoCfg 1 true (some (-5))) "" 0) [0, 0] = -2 ∧
    qNonTerminal true (1 / 2) 1 0 = 1 / 2 ∧
    qTerminal true (1 / 2) 1 (some (-5)) = -2 := by
  refine ⟨fun u g r m ftv => ⟨backupTarget_false u g r ftv m, backupTarget_true u g r ftv m⟩,
    ?_, ?_, ?_, ?_⟩
  · norm_num [learn, learnRun, learnInitQ, initQ, initRunSt, initStats, demoCfg, demoEnv, runEpisode,
      innerLoop, loopBody, selectActionAsCalledInLearn, npRandomRandom, npArgmax, npRow,
      argmaxAux, npAmax, backupTarget, qTerminal, qNonTerminal, boolToQ, truthyOpt, qUpdate,
      npSet, bumpAt, updF, qEntryOf, npMin, npAverage, List.range_succ, loopBodyIdx,
      Except.instMonad, Except.bind, Except.map, Except.pure, min_def]
  · norm_num [learn, learnRun, learnInitQ, initQ, initRunSt, initStats, demoCfg, demoEnv, runEpisode,
      innerLoop, loopBody, selectActionAsCalledInLearn, npRandomRandom, npArgmax, npRow,
      argmaxAux, npAmax, backupTarget, qTerminal, qNonTerminal, boolToQ, truthyOpt, qUpdate,
      npSet, bumpAt, updF, qEntryOf, npMin, npAverage, List.range_succ, loopBodyIdx,
      Except.instMonad, Except.bind, Except.map, Except.pure, min_def]
  · rw [qNonTerminal]
    norm_num [min_def]
  · rw [qTerminal]
    norm_num [truthyOpt, min_def]

/-- C7: both fatal configuration errors — `start_episode` supplied with
no warm-start table, and a warm-start table whose leading shape differs
from `buckets` — make `learn` return the `ValueError` immediately, for
every environment, schedule and episode budget: no episode runs and
neither a value table nor statistics are produced. -/
theorem c7_config_errors_fail_fast :
    (∀ {O E : Type} (cfg : LearnCfg O E) (w : String) (el : ℚ),
        cfg.qValues = none → cfg.startEpisode.isSome = true →
        learn cfg w el =
          Except.error "start_episode is only to be used with a warmstart q_values") ∧
    (∀ {O E : Type} (cfg : LearnCfg O E) (w : String) (el : ℚ) (qv : NpArray),
        cfg.qValues = some qv → qv.shape.dropLast ≠ cfg.buckets →
        learn cfg w el =
          Except.error "The shape of q_values excluding the last dimension must be the same as the shape of the discretization of states.") := by
  constructor
  · intro O E cfg w el hq hs
    simp [learn, learnInitQ, hq, hs, Except.instMonad, Except.bind]
  · intro O E cfg w el qv hq hs
    simp [learn, learnInitQ, hq, hs, Except.instMonad, Except.bind]

/-- C7 witness: the theorem applied to two concrete configurations, one
with `start_episode = 3` and no warm start, one with a warm-start table
of shape `[2, 1]` against `buckets = [1]`. -/
theorem c7_config_errors_fail_fast_witness :
    learn { demoCfg 1 true none with startEpisode := some 3 } "" 0 =
      Except.error "start_episode is only to be used with a warmstart q_values" ∧
    learn { demoCfg 1 true none with
        qValues := some { shape := [2, 1], data := fun _ => 0 } } "" 0 =
      Except.error "The shape of q_values excluding the last dimension must be the same as the shape of the discretization of states." := by
  constructor
  · exact c7_config_errors_fail_fast.1 _ "" 0 rfl rfl
  · exact c7_config_errors_fail_fast.2 _ "" 0 _ rfl (by decide)

/-- C9: warm-start validation compares only the leading shape (the shape
with its last axis dropped) to `buckets`: any table of shape
`buckets ++ [m]` passes — also when `m` differs from the action count of
the environment — and the run proceeds with that table adopted as the
initial value table. -/
theorem c9_shape_check_ignores_action_dim :
    ∀ {O E : Type} (cfg : LearnCfg O E) (qv : NpArray) (m : Nat) (w : String) (el : ℚ),
      cfg.qValues = some qv → qv.shape = cfg.buckets ++ [m] →
      learnInitQ cfg = Except.ok qv ∧ learn cfg w el = learnRun cfg qv w el := by
  intro O E cfg qv m w el hq hs
  have hpass : qv.shape.dropLast = cfg.buckets := by
    rw [hs]
    exact List.dropLast_concat
  constructor
  · simp [learnInitQ, hq, hpass]
  · simp [learn, learnInitQ, hq, hpass, Except.instMonad, Except.bind]

/-- C9 witness: a warm-start table of shape `[1, 3]` against
`buckets = [1]` and a single-action environment passes validation, is
adopted, and the run proceeds (the trailing dimension 3 differs from the
action count 1). -/
theorem c9_shape_check_ignores_action_dim_witness :
    learnInitQ { demoCfg 1 true none with qValues := some demoWideQ } =
      Except.ok demoWideQ ∧
    learn { demoCfg 1 true none with qValues := some demoWideQ } "" 0 =
      learnRun { demoCfg 1 true none with qValues := some demoWideQ } demoWideQ "" 0 ∧
    demoWideQ.shape = [1, 3] ∧
    ({ demoCfg 1 true none with qValues := some demoWideQ } : LearnCfg Unit Unit).env.n = 1 := by
  obtain ⟨h1, h2⟩ :=
    c9_shape_check_ignores_action_dim
      { demoCfg 1 true none with qValues := some demoWideQ } demoWideQ 3 "" 0 rfl rfl
  exact ⟨h1, h2, rfl, rfl⟩

/-- A successful loop iteration changes the visit counters exactly by the
bump at the visited (state, action) index. -/
theorem loopBody_visits {O E : Type} (cfg : LearnCfg O E) (ep se : Nat) (σ : InnerSt E)
    (r : InnerSt E × Bool) (h : loopBody cfg ep se σ = Except.ok r) :
    r.1.visits = bumpAt σ.visits (loopBodyIdx cfg σ) := by
  by_cases hd : cfg.stream σ.rng.seed σ.rng.counter < 0
  · simp [loopBody, selectActionAsCalledInLearn, npRandomRandom, hd,
      Except.instMonad, Except.bind] at h
  · rw [loopBody_ok cfg ep se σ hd] at h
    cases h
    rfl

/-- Folding bump updates over any sequence of visited indices adds to
each cell exactly the number of occurrences of its index in the
sequence. -/
theorem foldl_bumpAt_data (js : List (List Nat)) :
    ∀ (v : NpArray) (j : List Nat),
      (js.foldl bumpAt v).data j = v.data j + (js.count j : ℚ) := by
  induction js with
  | nil => intro v j; simp
  | cons a t ih =>
    intro v j
    rw [List.foldl_cons, ih]
    by_cases hj : j = a
    · subst hj
      rw [bumpAt_data_same]
      simp [List.count_cons]
      ring
    · rw [bumpAt_data_ne _ _ _ hj]
      have : (a == j) = false := by
        simp [Ne.symm hj]
      simp [List.count_cons, this]

/-- Across a whole inner episode loop that ends normally, every visit
counter is monotonically non-decreasing. -/
theorem innerLoop_visits_le {O E : Type} (cfg : LearnCfg O E) (ep se : Nat) :
    ∀ (fuel : Nat) (σ σ1 : InnerSt E),
      innerLoop cfg ep se fuel σ = Except.ok σ1 →
      ∀ j, σ.visits.data j ≤ σ1.visits.data j := by
  intro fuel
  induction fuel with
  | zero =>
    intro σ σ1 h j
    simp only [innerLoop] at h
    cases h
    exact le_refl _
  | succ f ih =>
    intro σ σ1 h j
    rcases hb : loopBody cfg ep se σ with e | r
    · simp [innerLoop, hb, Except.instMonad, Except.bind] at h
    · have hv : r.1.visits = bumpAt σ.visits (loopBodyIdx cfg σ) :=
        loopBody_visits cfg ep se σ r hb
      have hle : σ.visits.data j ≤ r.1.visits.data j := by
        rw [hv]; exact bumpAt_data_le _ _ _
      simp only [innerLoop, hb, Except.instMonad, Except.bind] at h
      split at h
      · cases h; exact hle
      · split at h
        · split at h
          · cases h; exact hle
          · exact le_trans hle (ih r.1 σ1 h j)
        · exact le_trans hle (ih r.1 σ1 h j)

/-- Across one episode that ends normally, every visit counter in the
statistics is monotonically non-decreasing. -/
theorem runEpisode_visits_le {O E : Type} (cfg : LearnCfg O E) (se : Nat)
    (st st1 : RunSt E) (ep : Nat) (h : runEpisode cfg se st ep = Except.ok st1) :
    ∀ j, st.stats.stateActionVisits.data j ≤ st1.stats.stateActionVisits.data j := by
  intro j
  rcases hi : innerLoop cfg ep se
      (match cfg.maxEpisodeLength with
        | some m => m + 1
        | none => cfg.fuel)
      { q := st.q
        visits := st.stats.stateActionVisits
        eps := st.eps
        alpha := st.alpha
        gamma := st.gamma
        rng := st.rng
        env := (cfg.env.reset st.env).2
        state := cfg.discretizeF (cfg.env.reset st.env).1
        rewards := []
        t := 0 } with e | σ
  · rw [runEpisode] at h
    simp only [hi, Except.instMonad, Except.bind] at h
    exact Except.noConfusion h
  · rw [runEpisode] at h
    simp only [hi, Except.instMonad, Except.bind] at h
    cases h
    exact innerLoop_visits_le cfg ep se _ _ σ hi j

/-- Across the whole episode fold of `learn`, every visit counter is
monotonically non-decreasing. -/
theorem foldEpisodes_visits_le {O E : Type} (cfg : LearnCfg O E) (se : Nat) :
    ∀ (l : List Nat) (st st1 : RunSt E),
      List.foldlM (runEpisode cfg se) st l = Except.ok st1 →
      ∀ j, st.stats.stateActionVisits.data j ≤ st1.stats.stateActionVisits.data j := by
  intro l
  induction l with
  | nil =>
    intro st st1 h j
    simp only [List.foldlM, Except.instMonad, Except.pure] at h
    cases h
    exact le_refl _
  | cons a t ih =>
    intro st st1 h j
    rcases hr : runEpisode cfg se st a with e | st2
    · simp [List.foldlM, hr, Except.instMonad, Except.bind] at h
    · simp only [List.foldlM, hr, Except.instMonad, Except.bind] at h
      exact le_trans (runEpisode_visits_le cfg se st st2 a hr j) (ih st2 st1 h j)

/-- C8: (i) a successful loop iteration increments the visit counter of
the visited (state, action) pair by exactly one and no other counter;
(ii) starting from zeroed counters, after any sequence of bump updates a
pair visited `k` times holds exactly `k`, independent of interleaving
with other pairs; (iii) the counters are monotonically non-decreasing
across a whole inner episode loop; (iv) in a completed run the counters
in the returned statistics are all at least their initial value zero. -/
theorem c8_visit_counts :
    (∀ {O E : Type} (cfg : LearnCfg O E) (ep se : Nat) (σ σ1 : InnerSt E) (d : Bool),
        loopBody cfg ep se σ = Except.ok (σ1, d) →
        σ1.visits.data (loopBodyIdx cfg σ) = σ.visits.data (loopBodyIdx cfg σ) + 1 ∧
        ∀ j, j ≠ loopBodyIdx cfg σ → σ1.visits.data j = σ.visits.data j) ∧
    (∀ (sh : List Nat) (js : List (List Nat)) (j : List Nat),
        (js.foldl bumpAt { shape := sh, data := fun _ => 0 }).data j = (js.count j : ℚ)) ∧
    (∀ {O E : Type} (cfg : LearnCfg O E) (ep se fuel : Nat) (σ σ1 : InnerSt E),
        innerLoop cfg ep se fuel σ = Except.ok σ1 →
        ∀ j, σ.visits.data j ≤ σ1.visits.data j) ∧
    (∀ {O E : Type} (cfg : LearnCfg O E) (w : String) (el : ℚ) (q : NpArray) (s : Stats),
        learn cfg w el = Except.ok (q, s) → ∀ j, 0 ≤ s.stateActionVisits.data j) := by
  refine ⟨?_, ?_, ?_, ?_⟩
  · intro O E cfg ep se σ σ1 d h
    have hv := loopBody_visits cfg ep se σ (σ1, d) h
    constructor
    · rw [hv]; exact bumpAt_data_same _ _
    · intro j hj; rw [hv]; exact bumpAt_data_ne _ _ _ hj
  · intro sh js j
    rw [foldl_bumpAt_data]
    simp
  · intro O E cfg ep se fuel σ σ1 h
    exact innerLoop_visits_le cfg ep se fuel σ σ1 h
  · intro O E cfg w el q s h j
    rcases hq0 : learnInitQ cfg with e | q0
    · simp [learn, hq0, Except.instMonad, Except.bind] at h
    · simp only [learn, hq0, Except.instMonad, Except.bind] at h
      rcases hf : List.foldlM (runEpisode cfg (cfg.startEpisode.getD 0))
          (initRunSt cfg q0 w) (List.range cfg.maxEpisodes) with e | fin
      · rw [learnRun] at h
        simp only [hf, Except.instMonad, Except.bind] at h
        exact Except.noConfusion h
      · rw [learnRun] at h
        simp only [hf, Except.instMonad, Except.bind] at h
        cases h
        have := foldEpisodes_visits_le cfg (cfg.startEpisode.getD 0)
          (List.range cfg.maxEpisodes) _ fin hf j
        simpa [initRunSt, initStats] using this

/-- C8 witness: the step-level part applied to the concrete demo
iteration (the visited pair count goes from 0 to 1), and the fold part
applied to a concrete interleaved sequence that visits `[0, 0]` twice. -/
theorem c8_visit_counts_witness :
    (∃ (σ1 : InnerSt Unit) (d : Bool),
      loopBody (demoCfg 1 false none) 0 0 demoInner = Except.ok (σ1, d) ∧
      σ1.visits.data [0, 0] = 1) ∧
    ([[0, 0], [0, 1], [0, 0]].foldl bumpAt
        { shape := [1, 2], data := fun _ => 0 }).data [0, 0] = 2 := by
  constructor
  · have hd : ¬ (demoCfg 1 false none).stream demoInner.rng.seed demoInner.rng.counter < 0 := by
      norm_num [demoCfg]
    have hok := loopBody_ok (demoCfg 1 false none) 0 0 demoInner hd
    refine ⟨_, _, hok, ?_⟩
    have hidx : loopBodyIdx (demoCfg 1 false none) demoInner = [0, 0] := by
      norm_num [loopBodyIdx, demoCfg, demoEnv, demoInner, npRow, npArgmax, argmaxAux,
        List.range_succ]
    rw [← hidx,
      (c8_visit_counts.1 (demoCfg 1 false none) 0 0 demoInner _ _ hok).1, hidx]
    norm_num [demoInner]
  · rw [c8_visit_counts.2.1 [1, 2] [[0, 0], [0, 1], [0, 0]] [0, 0]]
    norm_num [List.count_cons]

/-- Running one episode from a state whose statistics carry an
overwritten `start_time` gives the same result with the same overwritten
`start_time`: the episode loop never reads that field. -/
theorem runEpisode_setStart {O E : Type} (cfg : LearnCfg O E) (se : Nat) (w : String)
    (st : RunSt E) (ep : Nat) :
    runEpisode cfg se (setStart w st) ep =
      Except.map (setStart w) (runEpisode cfg se st ep) := by
  rcases hi : innerLoop cfg ep se
      (match cfg.maxEpisodeLength with
        | some m => m + 1
        | none => cfg.fuel)
      { q := st.q
        visits := st.stats.stateActionVisits
        eps := st.eps
        alpha := st.alpha
        gamma := st.gamma
        rng := st.rng
        env := (cfg.env.reset st.env).2
        state := cfg.discretizeF (cfg.env.reset st.env).1
        rewards := []
        t := 0 } with e | σ
  · rw [runEpisode, runEpisode]
    simp only [setStart, hi, Except.instMonad, Except.bind, Except.map]
  · rw [runEpisode, runEpisode]
    simp only [setStart, hi, Except.instMonad, Except.bind, Except.map]

/-- The episode fold never reads the `start_time` field either. -/
theorem foldEpisodes_setStart {O E : Type} (cfg : LearnCfg O E) (se : Nat) (w : String) :
    ∀ (l : List Nat) (st : RunSt E),
      List.foldlM (runEpisode cfg se) (setStart w st) l =
        Except.map (setStart w) (List.foldlM (runEpisode cfg se) st l) := by
  intro l
  induction l with
  | nil =>
    intro st
    simp [List.foldlM, Except.instMonad, Except.pure, Except.map]
  | cons a t ih =>
    intro st
    rcases hr : runEpisode cfg se st a with e | st2
    · have hr2 := runEpisode_setStart cfg se w st a
      rw [hr] at hr2
      simp [List.foldlM, hr, hr2, Except.instMonad, Except.bind, Except.map]
    · have hr2 := runEpisode_setStart cfg se w st a
      rw [hr] at hr2
      simp only [List.foldlM, hr, hr2, Except.instMonad, Except.bind, Except.map]
      exact ih st2

/-- The training run with wall-clock inputs `w` and `el` is the run with
blank clock inputs, with `start_time` and `time_elapsed` patched in at
the end: the clock readings influence nothing else. -/
theorem learnRun_clock {O E : Type} (cfg : LearnCfg O E) (q0 : NpArray) (w : String)
    (el : ℚ) :
    learnRun cfg q0 w el =
      Except.map
        (fun r => (r.1, { r.2 with startTime := w, timeElapsed := some el }))
        (learnRun cfg q0 "" 0) := by
  have hst : initRunSt cfg q0 w = setStart w (initRunSt cfg q0 "") := rfl
  have hw := foldEpisodes_setStart cfg (cfg.startEpisode.getD 0) w
    (List.range cfg.maxEpisodes) (initRunSt cfg q0 "")
  rcases hf : List.foldlM (runEpisode cfg (cfg.startEpisode.getD 0))
      (initRunSt cfg q0 "") (List.range cfg.maxEpisodes) with e | fin
  · rw [hf] at hw
    rw [learnRun, learnRun, hst, hw, hf]
    simp [Except.instMonad, Except.bind, Except.map]
  · rw [hf] at hw
    rw [learnRun, learnRun, hst, hw, hf]
    simp [Except.instMonad, Except.bind, Except.map, setStart]

/-- C3 counterexample: two runs of the training loop with the same seed,
the same schedule functions and the same deterministic environment stub,
but different wall-clock readings, return different results: the
statistics embed the `start_time` reading (and the elapsed process time),
so the two Statistics are not bit-identical as the claim requires. -/
theorem c3_wall_clock_counterexample :
    learn (demoCfg 1 true none) "a" 0 ≠ learn (demoCfg 1 true none) "b" 0 := by
  intro h
  have h1 : startTimeOf (learn (demoCfg 1 true none) "a" 0) = "a" := by
    norm_num [learn, learnRun, learnInitQ, initQ, initRunSt, initStats, demoCfg, demoEnv, runEpisode,
      innerLoop, loopBody, selectActionAsCalledInLearn, npRandomRandom, npArgmax, npRow,
      argmaxAux, npAmax, backupTarget, qTerminal, qNonTerminal, boolToQ, truthyOpt, qUpdate,
      npSet, bumpAt, updF, startTimeOf, npMin, npAverage, List.range_succ, loopBodyIdx,
      Except.instMonad, Except.bind, Except.map, Except.pure, min_def]
  have h2 : startTimeOf (learn (demoCfg 1 true none) "b" 0) = "b" := by
    norm_num [learn, learnRun, learnInitQ, initQ, initRunSt, initStats, demoCfg, demoEnv, runEpisode,
      innerLoop, loopBody, selectActionAsCalledInLearn, npRandomRandom, npArgmax, npRow,
      argmaxAux, npAmax, backupTarget, qTerminal, qNonTerminal, boolToQ, truthyOpt, qUpdate,
      npSet, bumpAt, updF, startTimeOf, npMin, npAverage, List.range_succ, loopBodyIdx,
      Except.instMonad, Except.bind, Except.map, Except.pure, min_def]
  rw [h, h2] at h1
  exact absurd h1 (by decide)

/-- C3 amended: two runs of the training loop with the same
configuration (seed, schedule functions, deterministic environment stub)
produce bit-identical value tables, and bit-identical statistics apart
from the wall-clock fields `start_time` and `time_elapsed`, which record
the time of each run. -/
theorem c3_deterministic_up_to_clock :
    ∀ {O E : Type} (cfg : LearnCfg O E) (w1 : String) (el1 : ℚ) (w2 : String) (el2 : ℚ),
      Except.map (fun r => r.1) (learn cfg w1 el1) =
        Except.map (fun r => r.1) (learn cfg w2 el2) ∧
      Except.map (fun r => scrubClock r.2) (learn cfg w1 el1) =
        Except.map (fun r => scrubClock r.2) (learn cfg w2 el2) := by
  intro O E cfg w1 el1 w2 el2
  rcases hq : learnInitQ cfg with e | q0
  · constructor <;>
      simp [learn, hq, Except.instMonad, Except.bind, Except.map]
  · have hl1 : learn cfg w1 el1 = learnRun cfg q0 w1 el1 := by
      simp [learn, hq, Except.instMonad, Except.bind]
    have hl2 : learn cfg w2 el2 = learnRun cfg q0 w2 el2 := by
      simp [learn, hq, Except.instMonad, Except.bind]
    rw [hl1, hl2, learnRun_clock cfg q0 w1 el1, learnRun_clock cfg q0 w2 el2]
    rcases learnRun cfg q0 "" 0 with e | r
    · exact ⟨rfl, rfl⟩
    · exact ⟨rfl, rfl⟩

end SafetyRL
